import Mathlib

set_option maxRecDepth 100000

/-!
Verification of the AiXun T3x updater (`t3xupdate.py`).

Shallow embedding conventions:
* Python `bytes` values are `List Nat` (each element a byte value).
* File contents are a `List Nat`; `file.seek(off); file.read(n)` over the
  same open file is modelled by `readAt` (absolute offset slicing).
* The serial device is modelled by a script of responses consumed in order;
  a `SerialException` raised during an exchange is `Resp.exn`.
* Observable side effects (opening the port, writing a request, the settle
  sleep) are recorded in an action trace (`Act`).
-/

namespace T3x

/-- `file[off : off+n]`: the bytes obtained by `file.seek(off); file.read(n)`.
Short reads near end-of-file return fewer bytes, as in Python. -/
def readAt (f : List Nat) (off n : Nat) : List Nat :=
  (f.drop off).take n

/-- `int.from_bytes(l, "big")`. -/
def beBytes (l : List Nat) : Nat :=
  l.foldl (fun a b => 256 * a + b) 0

/-- `bs.rstrip(bytes([pad]))`: remove all trailing `pad` bytes. -/
def rstrip (pad : Nat) (l : List Nat) : List Nat :=
  (l.reverse.dropWhile (fun b => b == pad)).reverse

/-- One bit step of the reflected CRC-16 with polynomial 0x8005
(reflected form 0xA001), as computed by
`crcmod.mkCrcFun(0x18005, rev=True, initCrc=0xFFFF, xorOut=0x0000)`. -/
def crcStep (crc : Nat) : Nat :=
  if crc % 2 = 1 then (crc / 2) ^^^ 0xA001 else crc / 2

/-- The CRC-16 used by `parse_update`: init 0xFFFF, input/output reflected,
no final XOR (`crcmod.mkCrcFun(0x18005, rev=True, initCrc=0xFFFF, xorOut=0)`). -/
def crc16 (data : List Nat) : Nat :=
  data.foldl (fun c b => crcStep^[8] (c ^^^ b)) 0xFFFF

/-! ### Protocol byte-string constants (ASCII) -/

/-- `b"JCID"` -/
def jcidMagic : List Nat := [74, 67, 73, 68]
/-- `b"vers"` -/
def versTok : List Nat := [118, 101, 114, 115]
/-- `b"JC_identity"` -/
def jcIdentityCmd : List Nat := [74, 67, 95, 105, 100, 101, 110, 116, 105, 116, 121]
/-- `b"JC_version"` -/
def jcVersionCmd : List Nat := [74, 67, 95, 118, 101, 114, 115, 105, 111, 110]
/-- `b"JC_boot"` -/
def jcBoot : List Nat := [74, 67, 95, 98, 111, 111, 116]
/-- `b"JC_User"` -/
def jcUser : List Nat := [74, 67, 95, 85, 115, 101, 114]
/-- `b"JC_reset"` -/
def jcResetTok : List Nat := [74, 67, 95, 114, 101, 115, 101, 116]
/-- `b"update_jcxx"` -/
def updateTok : List Nat := [117, 112, 100, 97, 116, 101, 95, 106, 99, 120, 120]
/-- `b"ack_jcxx"` -/
def ackTok : List Nat := [97, 99, 107, 95, 106, 99, 120, 120]

/-- `T3XUpdater.parse_update` (t3xupdate.py lines 63-98), as a pure function
of the file bytes.  Returns `none` for every error path (the Python code
returns `(None, None, 0)` there) and `some (fw_product, fw_version, file_size)`
on success. -/
def parse_update (f : List Nat) : Option (List Nat × List Nat × Nat) :=
  if readAt f 0 4 ≠ jcidMagic then none
  else
    let file_size := f.length
    let fw_size := beBytes (readAt f 0x60 4) + 0x100
    if file_size ≠ fw_size then none
    else
      let csum_file := beBytes (readAt f 0x64 2)
      let csum_calc := crc16 (f.drop 0x100)
      if csum_calc ≠ csum_file then none
      else
        let fw_product := (List.splitOn 95 (rstrip 0xFF (readAt f 0x20 16))).getLastD []
        let v0 := readAt f 0x40 4
        let fw_version := if v0 = versTok then readAt f 0x47 4 else v0
        some (fw_product, fw_version, file_size)

/-! ### `transfer`, line level (t3xupdate.py lines 40-49)

`transfer` writes the request, then does `read(1)` (which blocks under the
3-second timeout and returns zero or one byte), then `read_all().rstrip(b'\x00')`.
The possible outcomes of one exchange on the line are:
* `timeout`: no response byte arrived before the timeout (`read(1) == b''`);
* `disconnect`: the link dropped (`serial.SerialException` propagates);
* `resp first rest`: a first byte arrived and `rest` was drained by `read_all`. -/

inductive LineOutcome where
  | timeout : LineOutcome
  | disconnect : LineOutcome
  | resp : Nat → List Nat → LineOutcome
deriving DecidableEq

inductive TransferResult where
  | ok : List Nat → TransferResult
  | linkLost : TransferResult
deriving DecidableEq

/-- The value returned (or exception raised) by `T3XUpdater.transfer` for each
line outcome: `rx = self.ser.read(1); rx += self.ser.read_all().rstrip(b'\x00')`. -/
def transfer : LineOutcome → TransferResult
  | .timeout => .ok []
  | .disconnect => .linkLost
  | .resp b rest => .ok (b :: rstrip 0 rest)

/-! ### Session-level device model

A device is a script of responses, consumed in order, one per `transfer`
call.  `Resp.bytes r` is the outcome in which `transfer` returns the cleaned
bytes `r` (so a silent device / timeout is `Resp.bytes []`, cf. `transfer`
above); `Resp.exn` is the outcome in which `transfer` raises
`serial.SerialException`.  Externally visible actions are traced. -/

inductive Resp where
  | bytes : List Nat → Resp
  | exn : Resp
deriving DecidableEq

inductive Act where
  | connect : Act
  | tx : List Nat → Act
  | settleWait : Act
deriving DecidableEq

structure St where
  script : List Resp
  acts : List Act
deriving DecidableEq

/-- Session-level `transfer`: emits the request, consumes the next scripted
response.  `none` means a `SerialException` was raised.  An exhausted script
behaves like a silent device (first read times out, `transfer` returns `b''`). -/
def transferS (req : List Nat) (s : St) : Option (List Nat) × St :=
  let acts := s.acts ++ [Act.tx req]
  match s.script with
  | [] => (some [], ⟨[], acts⟩)
  | Resp.bytes r :: rest => (some r, ⟨rest, acts⟩)
  | Resp.exn :: rest => (none, ⟨rest, acts⟩)

/-- `T3XUpdater.enter_bootloader` (t3xupdate.py lines 100-123).
Result `none` models an uncaught exception escaping the method; `some b`
models `return b`.

Structure mirrored from the source: first identity query; immediate success
on `b'JC_boot'`; on `b'JC_User'` a `try` block sending the device its own raw
version string (a `SerialException` in it is caught with only a warning; a
reply other than `b'JC_reset'` only warns), then the `finally` clause sleeps
3 s and reconnects, then the code queries the identity twice
(`identity = self.get_identity()` on line 118 followed by
`if self.get_identity() == b'JC_boot'` on line 119) and succeeds when the
second reply is `b'JC_boot'`; every other first reply falls through to
`return False`. -/
def enter_bootloader (s : St) : Option Bool × St :=
  match transferS jcIdentityCmd s with
  | (none, s1) => (none, s1)
  | (some idy, s1) =>
    if idy = jcBoot then (some true, s1)
    else if idy = jcUser then
      let s2 :=
        match transferS jcVersionCmd s1 with
        | (none, sa) => sa
        | (some rv, sa) => (transferS rv sa).2
      let s3 : St := ⟨s2.script, s2.acts ++ [Act.settleWait, Act.connect]⟩
      match transferS jcIdentityCmd s3 with
      | (none, s4) => (none, s4)
      | (some _, s4) =>
        match transferS jcIdentityCmd s4 with
        | (none, s5) => (none, s5)
        | (some idy2, s5) =>
          if idy2 = jcBoot then (some true, s5) else (some false, s5)
    else (some false, s1)

/-- The chunk-upload loop of `T3XUpdater.do_update`
(t3xupdate.py lines 152-170), iterating over the offsets of
`range(0, fw_size, 2048)`.  `f` is the file content (read sequentially in
2048-byte pieces from `seek(0)`, hence chunk `offset` reads
`f[offset : offset+2048]`).  Besides the session state it returns whether the
loop completed (reaching the code after the loop) and the list of
`(offset, data)` chunks handed to `transfer`, in order.

Per iteration: empty data breaks out of the loop (success); an ack other than
`b'ack_jcxx'` returns `False`; a `SerialException` is tolerated (loop
continues) exactly when `offset == fw_size - 256`, else returns `False`. -/
def sendLoopS (f : List Nat) (fwSize : Nat) :
    List Nat → St → Bool × St × List (Nat × List Nat)
  | [], s => (true, s, [])
  | offset :: rest, s =>
    let data := (f.drop offset).take 2048
    if data = [] then (true, s, [])
    else
      match transferS data s with
      | (some ack, s1) =>
        if ack = ackTok then
          let r := sendLoopS f fwSize rest s1
          (r.1, r.2.1, (offset, data) :: r.2.2)
        else (false, s1, [(offset, data)])
      | (none, s1) =>
        if (offset : Int) = (fwSize : Int) - 256 then
          let r := sendLoopS f fwSize rest s1
          (r.1, r.2.1, (offset, data) :: r.2.2)
        else (false, s1, [(offset, data)])

/-- The chunk loop run from offset 0 with a fresh action trace:
`for offset in range(0, fw_size, 2048)`. -/
def sendChunks (f : List Nat) (fwSize : Nat) (script : List Resp) :
    Bool × St × List (Nat × List Nat) :=
  sendLoopS f fwSize (List.range' 0 ((fwSize + 2047) / 2048) 2048) ⟨script, []⟩

/-- The chunks `(offset, data)` handed to `transfer` during an upload in
which the device acknowledges every chunk with `b'ack_jcxx'`. -/
def uploadTrace (f : List Nat) (S : Nat) : List (Nat × List Nat) :=
  (sendChunks f S (List.replicate ((S + 2047) / 2048) (Resp.bytes ackTok))).2.2

/-- ASCII code of the lowercase hex digit of `n < 16` (`'0'` = 48, `'a'` = 97). -/
def hexDigit (n : Nat) : Nat :=
  if n < 10 then 48 + n else 87 + n

/-- Minimal lowercase hex representation of `n` (empty for 0); fuel-driven
(`fuel ≥ n` suffices since the value shrinks by a factor 16 each step). -/
def hexReprAux : Nat → Nat → List Nat
  | 0, _ => []
  | _ + 1, 0 => []
  | fuel + 1, n => hexReprAux fuel (n / 16) ++ [hexDigit (n % 16)]

/-- Python `f"{n:08x}"`: lowercase hex, left-padded with `'0'` to width 8. -/
def hexPad8 (n : Nat) : List Nat :=
  let d := if n = 0 then [48] else hexReprAux n n
  List.replicate (8 - d.length) 48 ++ d

/-- `T3XUpdater.do_update` (t3xupdate.py lines 125-189) over the file bytes
and a device script.  Returns the method's result (`none` for an uncaught
exception, e.g. a `SerialException` outside any `try`, or the `IndexError`
when the raw version string has fewer than three `_`-separated fields),
the final session state (whose `acts` field is the trace of connects,
requests, and settle waits), and the list of payload chunks handed to
`transfer` by the upload loop. -/
def do_update (f : List Nat) (s : St) : Option Bool × St × List (Nat × List Nat) :=
  match parse_update f with
  | none => (some false, s, [])
  | some (fw_product, fw_version, fw_size) =>
    -- `if not (fw_product and fw_version)`: b'' and None are falsy
    if fw_product = [] ∨ fw_version = [] then (some false, s, [])
    else
      let s1 : St := ⟨s.script, s.acts ++ [Act.connect]⟩
      match transferS jcVersionCmd s1 with      -- get_product()
      | (none, s2) => (none, s2, [])
      | (some rv0, s2) =>
        match (List.splitOn 95 rv0).get? 2 with -- .split(b'_')[2]
        | none => (none, s2, [])
        | some product =>
          if fw_product ≠ product then (some false, s2, [])
          else
            match transferS jcVersionCmd s2 with   -- raw_version (unused)
            | (none, s3) => (none, s3, [])
            | (some _, s3) =>
              match transferS jcIdentityCmd s3 with  -- identity (unused)
              | (none, s4) => (none, s4, [])
              | (some _, s4) =>
                match enter_bootloader s4 with
                | (none, s5) => (none, s5, [])
                | (some false, s5) => (some false, s5, [])
                | (some true, s5) =>
                  match transferS jcVersionCmd s5 with -- get_version() → bl_version
                  | (none, s6) => (none, s6, [])
                  | (some _, s6) =>
                    match transferS jcVersionCmd s6 with -- bl_raw_version
                    | (none, s7) => (none, s7, [])
                    | (some blrv, s7) =>
                      -- f'0x{fw_size:08x}{bl_raw_version[8:].decode()}'
                      let update_str := [48, 120] ++ hexPad8 fw_size ++ blrv.drop 8
                      match transferS update_str s7 with
                      | (none, s8) => (none, s8, [])
                      | (some ack, s8) =>
                        if ack ≠ updateTok then (some false, s8, [])
                        else
                          match sendLoopS f fw_size
                              (List.range' 0 ((fw_size + 2047) / 2048) 2048) s8 with
                          | (false, s9, t) => (some false, s9, t)
                          | (true, s9, t) =>
                            let s10 : St := ⟨s9.script, s9.acts ++ [Act.settleWait, Act.connect]⟩
                            match transferS jcIdentityCmd s10 with
                            | (none, s11) => (none, s11, t)
                            | (some idy2, s11) =>
                              match transferS jcVersionCmd s11 with
                              | (none, s12) => (none, s12, t)
                              | (some rv2, s12) =>
                                let version := rv2.drop (rv2.length - 4)
                                if idy2 = jcUser ∧ version = fw_version
                                then (some true, s12, t)
                                else (some false, s12, t)

/-! ### A concrete well-formed firmware image (for witnesses)

260 = 0x104 bytes: magic `JCID`, product field `AiXun_T3S` padded with 0xFF,
version `1234` at 0x40, payload-length field 4 at 0x60, checksum 0x2BA1 at
0x64, payload `[1, 2, 3, 4]` from 0x100. -/

def testPayload : List Nat := [1, 2, 3, 4]

def testImage : List Nat :=
  jcidMagic                                                       -- 0x00
  ++ List.replicate 28 0                                          -- 0x04
  ++ ([65, 105, 88, 117, 110, 95, 84, 51, 83] ++ List.replicate 7 0xFF) -- 0x20
  ++ List.replicate 16 0                                          -- 0x30
  ++ [49, 50, 51, 52]                                             -- 0x40
  ++ List.replicate 28 0                                          -- 0x44
  ++ [0, 0, 0, 4]                                                 -- 0x60
  ++ [0x2B, 0xA1]                                                 -- 0x64
  ++ List.replicate 154 0                                         -- 0x66
  ++ testPayload                                                  -- 0x100

/-! ## Helper lemmas -/

lemma rstrip_append_replicate (pad : Nat) (t : List Nat) (k : Nat) :
    rstrip pad (t ++ List.replicate k pad) = rstrip pad t := by
  unfold rstrip
  rw [List.reverse_append, List.reverse_replicate,
    List.dropWhile_append_of_pos (by intro a ha; simp [List.mem_replicate] at ha; simp [ha])]

lemma rstrip_of_getLast?_ne (pad : Nat) (t : List Nat) (h : t.getLast? ≠ some pad) :
    rstrip pad t = t := by
  rcases List.eq_nil_or_concat t with rfl | ⟨L, b, rfl⟩
  · rfl
  · rw [List.concat_eq_append] at h ⊢
    have hb : b ≠ pad := by simpa [List.getLast?_concat] using h
    simp [rstrip, List.dropWhile_cons, hb]

lemma chunk_ne_nil {f : List Nat} {o : Nat} (h : o < f.length) :
    (f.drop o).take 2048 ≠ [] := by
  intro hc
  rw [List.take_eq_nil_iff] at hc
  rcases hc with hc | hc
  · omega
  · rw [List.drop_eq_nil_iff] at hc; omega

lemma sendLoop_allack (f : List Nat) (S : Nat) (offs : List Nat) :
    ∀ (tail : List Resp) (acts : List Act), (∀ x ∈ offs, x < f.length) →
      sendLoopS f S offs ⟨List.replicate offs.length (Resp.bytes ackTok) ++ tail, acts⟩
        = (true, ⟨tail, acts ++ offs.map (fun o => Act.tx ((f.drop o).take 2048))⟩,
           offs.map (fun o => (o, (f.drop o).take 2048))) := by
  induction offs with
  | nil => intro tail acts _; simp [sendLoopS]
  | cons o rest ih =>
    intro tail acts h
    have hne : (f.drop o).take 2048 ≠ [] := chunk_ne_nil (h o (by simp))
    simp only [sendLoopS, List.length_cons, List.replicate_succ, List.cons_append]
    rw [if_neg hne]
    simp only [transferS, if_true]
    rw [ih tail (acts ++ [Act.tx ((f.drop o).take 2048)]) (fun x hx => h x (by simp [hx]))]
    simp

lemma sendLoop_ack_prefix_fst (f : List Nat) (S : Nat) (pre : List Nat) :
    ∀ (offs2 : List Nat) (tail : List Resp) (acts : List Act),
      (∀ x ∈ pre, x < f.length) →
      (sendLoopS f S (pre ++ offs2)
          ⟨List.replicate pre.length (Resp.bytes ackTok) ++ tail, acts⟩).1
        = (sendLoopS f S offs2
            ⟨tail, acts ++ pre.map (fun o => Act.tx ((f.drop o).take 2048))⟩).1 := by
  induction pre with
  | nil => intro offs2 tail acts _; simp
  | cons o rest ih =>
    intro offs2 tail acts h
    have hne : (f.drop o).take 2048 ≠ [] := chunk_ne_nil (h o (by simp))
    simp only [List.cons_append, sendLoopS, List.length_cons, List.replicate_succ]
    rw [if_neg hne]
    simp only [transferS, if_true]
    show (sendLoopS f S (rest ++ offs2)
        ⟨List.replicate rest.length (Resp.bytes ackTok) ++ tail,
         acts ++ [Act.tx ((f.drop o).take 2048)]⟩).1 = _
    rw [ih offs2 tail (acts ++ [Act.tx ((f.drop o).take 2048)])
      (fun x hx => h x (by simp [hx]))]
    simp

lemma flatten_chunks (bs : List Nat) :
    ∀ (n start : Nat), bs.length ≤ start + 2048 * n →
      ((List.range' start n 2048).map (fun o => (bs.drop o).take 2048)).flatten
        = bs.drop start := by
  intro n
  induction n with
  | zero =>
    intro start h
    simp [List.drop_eq_nil_of_le (show bs.length ≤ start by omega)]
  | succ n ih =>
    intro start h
    rw [List.range'_succ]
    simp only [List.map_cons, List.flatten_cons]
    rw [ih (start + 2048) (by omega), ← List.drop_drop]
    exact List.take_append_drop 2048 (List.drop start bs)

end T3x

namespace T3x

/-! ## Claim theorems -/

/-- C1. For every firmware file, validation succeeds only if the actual file
size equals the big-endian 4-byte value at offset 0x60 plus 0x100 and the
CRC-16 (polynomial 0x8005 reflected, init 0xFFFF, no final XOR) over the bytes
from offset 0x100 to end-of-file equals the big-endian 2-byte value at offset
0x64; every file violating either condition fails validation and yields no
product and no version. -/
theorem claim_C1_size_and_checksum_gate (f : List Nat) :
    (∀ p v s, parse_update f = some (p, v, s) →
        f.length = beBytes (readAt f 0x60 4) + 0x100
        ∧ crc16 (f.drop 0x100) = beBytes (readAt f 0x64 2))
    ∧ ((f.length ≠ beBytes (readAt f 0x60 4) + 0x100
        ∨ crc16 (f.drop 0x100) ≠ beBytes (readAt f 0x64 2)) → parse_update f = none) := by
  constructor
  · intro p v s h
    simp only [parse_update] at h
    split_ifs at h with h1 h2 h3 h4 <;>
      exact ⟨not_ne_iff.mp h2, not_ne_iff.mp h3⟩
  · intro hviol
    simp only [parse_update]
    split_ifs with h1 h2 h3
    · rfl
    · rfl
    · rfl
    · rcases hviol with hv | hv
      · exact absurd hv h2
      · exact absurd hv h3

/-- Witness for C1: the concrete well-formed image satisfies both conditions,
and the empty file (which violates the size condition) is rejected. -/
theorem claim_C1_witness :
    (testImage.length = beBytes (readAt testImage 0x60 4) + 0x100
      ∧ crc16 (testImage.drop 0x100) = beBytes (readAt testImage 0x64 2))
    ∧ parse_update [] = none :=
  ⟨(claim_C1_size_and_checksum_gate testImage).1 [84, 51, 83] [49, 50, 51, 52] 260
      (by decide),
   (claim_C1_size_and_checksum_gate []).2 (Or.inl (by decide))⟩

/-- C3. For every image accepted by validation, the version is read from the
4 bytes at offset 0x47 when the 4 bytes at offset 0x40 equal the literal
token `"vers"`, and is the 4 bytes at offset 0x40 themselves otherwise. -/
theorem claim_C3_version_aliasing (f p v : List Nat) (s : Nat)
    (h : parse_update f = some (p, v, s)) :
    (readAt f 0x40 4 = versTok → v = readAt f 0x47 4)
    ∧ (readAt f 0x40 4 ≠ versTok → v = readAt f 0x40 4) := by
  simp only [parse_update] at h
  split_ifs at h with h1 h2 h3 h4
  · simp only [Option.some.injEq, Prod.mk.injEq] at h
    exact ⟨fun _ => h.2.1.symm, fun hc => absurd h4 hc⟩
  · simp only [Option.some.injEq, Prod.mk.injEq] at h
    exact ⟨fun hc => absurd hc h4, fun _ => h.2.1.symm⟩

/-- Witness for C3: the concrete image's bytes at 0x40 are not `"vers"`, so
its version is exactly those bytes. -/
theorem claim_C3_witness : ([49, 50, 51, 52] : List Nat) = readAt testImage 0x40 4 :=
  (claim_C3_version_aliasing testImage [84, 51, 83] [49, 50, 51, 52] 260
      (by decide)).2 (by decide)

/-- C5. Bootloader entry is idempotent: when the identity query replies
`"JC_boot"`, `enter_bootloader` returns `True` at once, having sent only the
identity request — no reset command, no settle wait, no reconnect. -/
theorem claim_C5_bootloader_idempotent (rest : List Resp) (acts : List Act) :
    enter_bootloader ⟨Resp.bytes jcBoot :: rest, acts⟩
      = (some true, ⟨rest, acts ++ [Act.tx jcIdentityCmd]⟩) := rfl

/-- C6. A timeout on the first response byte surfaces from `transfer` as the
distinct outcome `ok []` — no received response can produce it (a received
response always keeps its first byte), and a link-level disconnect surfaces
as the separate `linkLost` outcome (the propagating `SerialException`). -/
theorem claim_C6_timeout_distinct :
    (∀ ev : LineOutcome, transfer ev = TransferResult.ok [] ↔ ev = LineOutcome.timeout)
    ∧ transfer LineOutcome.disconnect = TransferResult.linkLost := by
  refine ⟨fun ev => ?_, rfl⟩
  cases ev <;> simp [transfer]

/-- C7, counterexample. The claim "transfer returns the response bytes with
all trailing null-byte padding stripped" fails on the response consisting of
the single byte 0x00: stripping all trailing nulls would yield `b''`, but
`transfer` keeps the first byte (only the `read_all()` remainder is
stripped) and returns `b'\x00'`. -/
theorem claim_C7_counterexample :
    transfer (LineOutcome.resp 0 []) ≠ TransferResult.ok (rstrip 0 [0]) := by
  decide

/-- C7, amended. `transfer` strips trailing null padding only from the bytes
after the first: any response formed of a token (nonempty and not ending in
0x00) followed by any number of trailing null bytes — including a single-byte
token — is returned as the bare token, and an all-null response is returned
as the single byte 0x00 rather than the empty string. -/
theorem claim_C7_trailing_nulls :
    (∀ (a : Nat) (t : List Nat) (k : Nat), (a :: t).getLast? ≠ some 0 →
        transfer (LineOutcome.resp a (t ++ List.replicate k 0))
          = TransferResult.ok (a :: t))
    ∧ ∀ (a k : Nat), transfer (LineOutcome.resp a (List.replicate k 0))
          = TransferResult.ok [a] := by
  have base : ∀ (a : Nat) (t : List Nat) (k : Nat), (a :: t).getLast? ≠ some 0 →
      transfer (LineOutcome.resp a (t ++ List.replicate k 0))
        = TransferResult.ok (a :: t) := by
    intro a t k h
    simp only [transfer, TransferResult.ok.injEq, List.cons.injEq, true_and]
    rw [rstrip_append_replicate]
    cases t with
    | nil => rfl
    | cons x xs =>
      exact rstrip_of_getLast?_ne 0 (x :: xs) (by simpa using h)
  refine ⟨base, fun a k => ?_⟩
  have h0 : rstrip 0 (List.replicate k 0) = [] := by
    simpa using rstrip_append_replicate 0 [] k
  simp [transfer, h0]

/-- Witness for C7 (amended): the response `b'ab'` followed by three null
bytes is returned as the bare token `b'ab'`. -/
theorem claim_C7_witness :
    transfer (LineOutcome.resp 97 ([98] ++ List.replicate 3 0))
      = TransferResult.ok [97, 98] :=
  claim_C7_trailing_nulls.1 97 [98] 3 (by decide)

/-- C10. For every identity reply that is neither `"JC_boot"` nor `"JC_User"`
(including the empty reply after a read timeout), `enter_bootloader` sends no
reset command, performs no settle wait and no reconnection, and returns
failure immediately: the only action taken is the identity request itself. -/
theorem claim_C10_unknown_identity_fails_fast (v : List Nat) (rest : List Resp)
    (acts : List Act) (h1 : v ≠ jcBoot) (h2 : v ≠ jcUser) :
    enter_bootloader ⟨Resp.bytes v :: rest, acts⟩
      = (some false, ⟨rest, acts ++ [Act.tx jcIdentityCmd]⟩) := by
  simp only [enter_bootloader, transferS]
  rw [if_neg h1, if_neg h2]

/-- Witness for C10: an empty identity reply (first-byte timeout) makes
`enter_bootloader` fail immediately after the single identity request. -/
theorem claim_C10_witness :
    enter_bootloader ⟨[Resp.bytes []], []⟩
      = (some false, ⟨[], [Act.tx jcIdentityCmd]⟩) :=
  claim_C10_unknown_identity_fails_fast [] [] [] (by decide) (by decide)

/-- C9 is wrong about the code (code bug): after the settle wait and
reconnection the source queries the device identity twice
(`identity = self.get_identity()` on line 118, then
`if self.get_identity() == b'JC_boot'` on line 119) and decides on the
second reply, while the failure message reports the first.  On a device whose
first post-reconnect identity reply is `"JC_boot"` but whose second reply is
`"JC_User"`, the claimed behaviour (succeed if and only if the single
re-queried identity is `"JC_boot"`) demands success, yet the code fails —
and the action trace shows the two identity requests after the reconnect. -/
theorem claim_C9_double_requery :
    enter_bootloader ⟨[Resp.bytes jcUser, Resp.bytes [74, 67, 95, 49],
        Resp.bytes jcResetTok, Resp.bytes jcBoot, Resp.bytes jcUser], []⟩
      = (some false, ⟨[], [Act.tx jcIdentityCmd, Act.tx jcVersionCmd,
          Act.tx [74, 67, 95, 49], Act.settleWait, Act.connect,
          Act.tx jcIdentityCmd, Act.tx jcIdentityCmd]⟩) := rfl

/-- C8. When the product identifier in the image differs from the product
reported by the device, `do_update` aborts with failure right after the
product query: the whole action trace is the port open plus the single
`JC_version` request — no bootloader-entry exchange, no update-start command
— and the list of transmitted payload chunks is empty. -/
theorem claim_C8_mismatch_aborts_early (f p v rv q : List Nat) (s : Nat)
    (rest : List Resp) (hparse : parse_update f = some (p, v, s))
    (hp : p ≠ []) (hv : v ≠ [])
    (hq : (List.splitOn 95 rv).get? 2 = some q) (hne : p ≠ q) :
    do_update f ⟨Resp.bytes rv :: rest, []⟩
      = (some false, ⟨rest, [Act.connect, Act.tx jcVersionCmd]⟩, []) := by
  simp only [do_update, hparse, transferS, hq]
  rw [if_neg (by simp [hp, hv]), if_pos hne]
  simp

/-- C2. In the chunk-upload loop, with every other chunk acknowledged
`b'ack_jcxx'`, a `SerialException` raised while sending the chunk at offset
`2048 * j` lets the loop end as a soft success if and only if that offset
equals `total_size - 256`; and a non-matching acknowledgment at that offset
makes the loop return failure at once (no chunk-level retry). -/
theorem claim_C2_disconnect_tolerance (S j : Nat) (f : List Nat) (r : List Nat)
    (hlen : f.length = S) (hj : 2048 * j < S) (hr : r ≠ ackTok) :
    ((sendChunks f S (List.replicate j (Resp.bytes ackTok) ++ Resp.exn ::
        List.replicate ((S + 2047) / 2048 - j - 1) (Resp.bytes ackTok))).1 = true
      ↔ ((2048 * j : Nat) : Int) = (S : Int) - 256)
    ∧ (sendChunks f S (List.replicate j (Resp.bytes ackTok) ++ Resp.bytes r ::
        List.replicate ((S + 2047) / 2048 - j - 1) (Resp.bytes ackTok))).1 = false := by
  have hjn : j < (S + 2047) / 2048 := by omega
  have hnj : (S + 2047) / 2048 = ((S + 2047) / 2048 - j - 1) + 1 + j := by omega
  have e1 : List.range' (2048 * j) (((S + 2047) / 2048 - j - 1) + 1) 2048
      = 2048 * j :: List.range' (2048 * j + 2048) ((S + 2047) / 2048 - j - 1) 2048 :=
    List.range'_succ _ _ _
  have e2 := List.range'_append 0 j (((S + 2047) / 2048 - j - 1) + 1) 2048
  rw [Nat.zero_add] at e2
  have hsplit : List.range' 0 ((S + 2047) / 2048) 2048
      = List.range' 0 j 2048 ++ (2048 * j ::
          List.range' (2048 * j + 2048) ((S + 2047) / 2048 - j - 1) 2048) := by
    conv_lhs => rw [hnj]
    rw [← e2, e1]
  have hmem : ∀ x ∈ List.range' 0 j 2048, x < f.length := by
    intro x hx
    rw [List.mem_range'] at hx
    obtain ⟨i, hi, rfl⟩ := hx
    omega
  have hne : (f.drop (2048 * j)).take 2048 ≠ [] := chunk_ne_nil (by omega)
  constructor
  · unfold sendChunks
    rw [hsplit]
    have hp := sendLoop_ack_prefix_fst f S (List.range' 0 j 2048)
      (2048 * j :: List.range' (2048 * j + 2048) ((S + 2047) / 2048 - j - 1) 2048)
      (Resp.exn :: List.replicate ((S + 2047) / 2048 - j - 1) (Resp.bytes ackTok))
      [] hmem
    rw [List.length_range'] at hp
    rw [hp]
    simp only [sendLoopS]
    rw [if_neg hne]
    simp only [transferS]
    by_cases hc : ((2048 * j : Nat) : Int) = (S : Int) - 256
    · rw [if_pos hc]
      have hc2 : (2048 : Int) * (j : Int) = (S : Int) - 256 := by
        push_cast at hc; exact hc
      have hS256 : S = 2048 * j + 256 := by omega
      have hj1 : (S + 2047) / 2048 - j - 1 = 0 := by omega
      rw [hj1]
      simp [sendLoopS, hc]
    · rw [if_neg hc]
      push_cast at hc
      simp [hc]
  · unfold sendChunks
    rw [hsplit]
    have hp := sendLoop_ack_prefix_fst f S (List.range' 0 j 2048)
      (2048 * j :: List.range' (2048 * j + 2048) ((S + 2047) / 2048 - j - 1) 2048)
      (Resp.bytes r :: List.replicate ((S + 2047) / 2048 - j - 1) (Resp.bytes ackTok))
      [] hmem
    rw [List.length_range'] at hp
    rw [hp]
    simp only [sendLoopS]
    rw [if_neg hne]
    simp only [transferS]
    rw [if_neg hr]

/-- Witness for C2: for a 2304-byte transfer, a disconnect at chunk offset
2048 = 2304 - 256 (the final, 256-byte chunk) ends the loop as a soft
success. -/
theorem claim_C2_witness :
    (sendChunks (List.replicate 2304 0) 2304
        (List.replicate 1 (Resp.bytes ackTok) ++ Resp.exn ::
          List.replicate ((2304 + 2047) / 2048 - 1 - 1) (Resp.bytes ackTok))).1 = true :=
  (claim_C2_disconnect_tolerance 2304 1 (List.replicate 2304 0) []
      (by simp) (by norm_num) (by decide)).1.mpr (by norm_num)

/-- C4. For a fully-acknowledged transfer of `S = file length` bytes, the
chunk offsets sent are exactly `0, 2048, 4096, ...` in strictly increasing
order, the chunk data concatenates back to the whole file (covering
`[0, S)` with no chunk out of order or repeated), every chunk except the
final one is 2048 bytes long, and the final chunk's length is `S mod 2048`
(or 2048 when `S` is evenly divisible). -/
theorem claim_C4_chunk_sequencing (f : List Nat) (S : Nat)
    (hlen : f.length = S) (hS : 0 < S) :
    (uploadTrace f S).map Prod.fst = List.range' 0 ((S + 2047) / 2048) 2048
    ∧ ((uploadTrace f S).map Prod.fst).Pairwise (· < ·)
    ∧ ((uploadTrace f S).map Prod.snd).flatten = f
    ∧ (∀ p ∈ (uploadTrace f S).dropLast, (Prod.snd p).length = 2048)
    ∧ (uploadTrace f S).getLast?.map (fun p => (Prod.snd p).length)
        = some (if S % 2048 = 0 then 2048 else S % 2048) := by
  have hmem : ∀ x ∈ List.range' 0 ((S + 2047) / 2048) 2048, x < f.length := by
    intro x hx
    rw [List.mem_range'] at hx
    obtain ⟨i, hi, rfl⟩ := hx
    omega
  have key : uploadTrace f S
      = (List.range' 0 ((S + 2047) / 2048) 2048).map
          (fun o => (o, (f.drop o).take 2048)) := by
    unfold uploadTrace sendChunks
    have h := sendLoop_allack f S (List.range' 0 ((S + 2047) / 2048) 2048) [] [] hmem
    rw [List.length_range', List.append_nil] at h
    rw [h]
  refine ⟨?_, ?_, ?_, ?_, ?_⟩
  · rw [key, List.map_map]
    simp [Function.comp_def]
  · rw [key, List.map_map]
    simp only [Function.comp_def]
    have hid : (List.range' 0 ((S + 2047) / 2048) 2048).map (fun o => o)
        = List.range' 0 ((S + 2047) / 2048) 2048 := List.map_id' _
    rw [hid]
    exact List.pairwise_lt_range' 0 ((S + 2047) / 2048) 2048 (by norm_num)
  · rw [key, List.map_map]
    simp only [Function.comp_def]
    have := flatten_chunks f ((S + 2047) / 2048) 0 (by omega)
    simpa using this
  · rw [key, ← List.map_dropLast]
    have hdl : (List.range' 0 ((S + 2047) / 2048) 2048).dropLast
        = List.range' 0 ((S + 2047) / 2048 - 1) 2048 := by
      conv_lhs => rw [show (S + 2047) / 2048 = ((S + 2047) / 2048 - 1) + 1 by omega,
        List.range'_concat]
      rw [List.dropLast_concat]
    rw [hdl]
    intro p hp
    simp only [List.mem_map, List.mem_range'] at hp
    obtain ⟨o, ⟨i, hi, rfl⟩, rfl⟩ := hp
    simp only [List.length_take, List.length_drop]
    omega
  · rw [key, List.getLast?_map]
    have hgl : (List.range' 0 ((S + 2047) / 2048) 2048).getLast?
        = some (0 + 2048 * ((S + 2047) / 2048 - 1)) := by
      conv_lhs => rw [show (S + 2047) / 2048 = ((S + 2047) / 2048 - 1) + 1 by omega,
        List.range'_concat]
      rw [List.getLast?_concat]
    rw [hgl]
    simp only [Option.map_some', List.length_take, List.length_drop]
    split_ifs with h <;> · congr 1; omega

/-- Witness for C4: a 100-byte file goes out as the single chunk at
offset 0. -/
theorem claim_C4_witness :
    (uploadTrace (List.replicate 100 5) 100).map Prod.fst
      = List.range' 0 ((100 + 2047) / 2048) 2048 :=
  (claim_C4_chunk_sequencing (List.replicate 100 5) 100 (by simp) (by norm_num)).1

/-- Witness for C8: with the concrete image (product `"T3S"`) and a device
whose raw version string names product `"T3M"`, the update aborts after the
port open and the single product query, with no chunk transmitted. -/
theorem claim_C8_witness :
    do_update testImage ⟨[Resp.bytes [74, 67, 95, 49, 95, 84, 51, 77]], []⟩
      = (some false, ⟨[], [Act.connect, Act.tx jcVersionCmd]⟩, []) :=
  claim_C8_mismatch_aborts_early testImage [84, 51, 83] [49, 50, 51, 52]
    [74, 67, 95, 49, 95, 84, 51, 77] [84, 51, 77] 260 []
    (by decide) (by decide) (by decide) (by decide) (by decide)

end T3x
